import Mathlib

/-!
Verification of the symbol-renaming CLI in scripts/redefine.py.

The script parses one positional argument `path`, builds the command
  objcopy --redefine-sym SYM=__rustSYM ... path
from a fixed list of 18 compiler-builtin symbol names, joins the pieces with
single spaces and executes the joined string through the shell
(subprocess.run with shell=True and check=True).

The embedding below translates the script into Lean definitions: the symbol
list, the flag list, the command list, the joined command string, and a model
of the whole run as a function of the command-line arguments and of the exit
code the external tool would return.  The semantics of the Python runtime and
of the external collaborators (argparse, the POSIX shell, the object-editing
tool) that the script delegates to are modelled explicitly and documented at
each definition.
-/

namespace Redefine

/-- The fixed symbol list `syms` of scripts/redefine.py (lines 11-30),
in source order. -/
def syms : List String :=
  [ "__addsf3"
  , "__eqsf2"
  , "__gesf2"
  , "__lesf2"
  , "__ltsf2"
  , "__mulsf3"
  , "__nesf2"
  , "__unordsf2"
  , "__adddf3"
  , "__ledf2"
  , "__ltdf2"
  , "__muldf3"
  , "__unorddf2"
  , "__muloti4"
  , "__multi3"
  , "__udivmodti4"
  , "__udivti3"
  , "__umodti3"
  ]

/-- Line 32 of the script: one `--redefine-sym SYM=__rustSYM` flag per
symbol, built by the f-string over `syms`. -/
def objcopy_args : List String :=
  syms.map (fun x => "--redefine-sym " ++ x ++ "=__rust" ++ x)

/-- Line 34 of the script: the command list, tool name first, the flags in
list order, the path last. -/
def cmd (path : String) : List String :=
  ["objcopy"] ++ objcopy_args ++ [path]

/-- Line 36 of the script joins the command list with single spaces before
handing it to subprocess.run. -/
def joinedCmd (path : String) : String :=
  String.intercalate " " (cmd path)

/-- The shape of the command argument handed to the process-spawning call:
either one string to be interpreted by a shell, or a discrete argument
vector. -/
inductive CmdArg where
  | shellString (s : String)
  | argList (l : List String)
deriving DecidableEq, Repr

/-- The observable parameters of the one subprocess.run call of the script.
subprocess.run waits for the child to finish, and with no stdout/stderr
keyword the child inherits the parent standard streams, so nothing the
child writes is captured or rewritten. -/
structure SpawnCall where
  arg : CmdArg
  shell : Bool
  check : Bool
  synchronous : Bool
  capturesOutput : Bool
deriving DecidableEq, Repr

/-- The subprocess.run call of line 36: the space-joined command string,
shell=True, check=True; synchronous with inherited streams per the
subprocess.run semantics above. -/
def runCall (path : String) : SpawnCall :=
  { arg := CmdArg.shellString (joinedCmd path)
  , shell := true
  , check := true
  , synchronous := true
  , capturesOutput := false }

/-- The process exit code as a function of the external tool exit code,
for a run that reaches line 36.  With check=True, subprocess.run raises
CalledProcessError when the child exits non-zero; the exception is not
caught, and CPython terminates with exit status 1 on an uncaught
exception.  When the child exits 0 the script falls off its last line and
exits 0. -/
def programExit (toolExit : Nat) : Nat :=
  if toolExit = 0 then 0 else 1

/-- Outcome of the argparse layer (lines 6-9 of the script). -/
inductive ParseResult where
  | ok (path : String)
  | help
  | usageError
deriving DecidableEq, Repr

/-- A token that argparse reads as an option rather than as a positional
argument: it starts with a dash and is not the bare dash. -/
def looksLikeOption (a : String) : Bool :=
  List.isPrefixOf "-".data a.data && a != "-"

/-- The argparse layer of lines 6-9: a parser with the single required
positional `path` and the automatic help option.  It answers help when
-h or --help is present; rejects any other option-like token as
unrecognized; and otherwise demands exactly one positional token
(zero is a missing required argument, two or more are unrecognized
extras).  Every rejection prints the standard usage message to stderr
and exits with status 2, before anything after parse_args runs. -/
def parseArgs (argv : List String) : ParseResult :=
  if argv.contains "-h" || argv.contains "--help" then ParseResult.help
  else if argv.any looksLikeOption then ParseResult.usageError
  else
    match argv with
    | [p] => ParseResult.ok p
    | _ => ParseResult.usageError

/-- What one whole run of the script does: the subprocess calls it made,
its exit code, and whether the argparse usage text was printed. -/
structure ProgResult where
  spawned : List SpawnCall
  exitCode : Nat
  usagePrinted : Bool
deriving DecidableEq, Repr

/-- The whole script as a function of its argument vector and of the exit
code the external tool would return: argparse first (help exits 0, a usage
error exits 2, both before any subprocess), then the single subprocess.run
call and the exit-code behaviour of programExit. -/
def runProgram (argv : List String) (toolExit : Nat) : ProgResult :=
  match parseArgs argv with
  | ParseResult.help => ⟨[], 0, true⟩
  | ParseResult.usageError => ⟨[], 2, true⟩
  | ParseResult.ok p => ⟨[runCall p], programExit toolExit, false⟩

/-- Helper for shellFields: accumulates the current word (reversed) while
scanning the character list. -/
def splitFieldsGo : List Char → List Char → List String
  | [], cur => if cur.isEmpty then [] else [String.mk cur.reverse]
  | c :: rest, cur =>
    if c = ' ' then
      if cur.isEmpty then splitFieldsGo rest []
      else String.mk cur.reverse :: splitFieldsGo rest []
    else splitFieldsGo rest (c :: cur)

/-- Modelled from the spec: the POSIX shell that subprocess.run(shell=True)
interposes performs field splitting on the command string before the tool
runs; for a string with no quoting and no metacharacter other than the
space, the fields are the maximal space-free runs, and they become the
argument vector the tool receives. -/
def shellFields (s : String) : List String :=
  splitFieldsGo s.data []

/-- The symbol rename table the flags encode: the pair of the original name
and the renamed name, one entry per element of `syms`, as written by the
f-string of line 32 (renamed name = the original with "__rust" prepended). -/
def renameTable : List (String × String) :=
  syms.map (fun x => (x, "__rust" ++ x))

/-- Modelled from the spec: the external object-editing tool is not part of
this repository.  Per the spec's collaborator contract it rewrites every
symbol-table name that matches an entry of the rename table to that entry's
renamed name and leaves non-matching names untouched. -/
def redefineName (s : String) : String :=
  if s ∈ syms then "__rust" ++ s else s

/-- Modelled from the spec: one invocation of the external tool on the
symbol-name table of a valid object file.  It renames every matching name
and reports success (exit code 0); per the spec's collaborator contract it
fails only for an invalid path or an unsupported file format, never because
a listed symbol is absent. -/
def toolRun (table : List String) : Nat × List String :=
  (0, table.map redefineName)

/-! ### Helper lemmas -/

/-- No renamed name is itself one of the original symbol names: prepending
"__rust" to any entry of `syms` leaves the list. -/
theorem rust_prefixed_not_mem : ∀ x ∈ syms, ("__rust" ++ x) ∉ syms := by decide

/-- The external tool's rename never produces one of the original names. -/
theorem redefineName_not_mem (s : String) : redefineName s ∉ syms := by
  unfold redefineName
  by_cases h : s ∈ syms
  · rw [if_pos h]; exact rust_prefixed_not_mem s h
  · rw [if_neg h]; exact h

/-- A name that is not in the symbol list is left unchanged by the tool. -/
theorem redefineName_eq_of_not_mem (s : String) (h : s ∉ syms) : redefineName s = s :=
  if_neg h

/-! ### Claims -/

/-- C1, counterexample: the claim says the script's exit code equals the
external tool's exit code with no remapping, but when the tool exits 2 the
script exits 1: check=True raises CalledProcessError on the non-zero child
exit and CPython terminates with status 1 on the uncaught exception. -/
theorem exit_code_not_propagated : (runProgram ["libfoo.o"] 2).exitCode ≠ 2 := by decide

/-- C1, amended: for a run that reaches the external tool, the script exits 0
when the tool exits 0, and exits with the fixed code 1 whenever the tool exits
non-zero - every non-zero tool exit code is remapped to 1 by the uncaught
CalledProcessError that check=True raises. -/
theorem exit_code_zero_or_one (argv : List String) (p : String) (n : Nat)
    (h : parseArgs argv = ParseResult.ok p) (hn : n ≠ 0) :
    (runProgram argv 0).exitCode = 0 ∧ (runProgram argv n).exitCode = 1 := by
  constructor
  · simp [runProgram, h, programExit]
  · simp [runProgram, h, programExit, hn]

/-- C1, witness: the amended exit-code behaviour at the concrete invocation
with path libfoo.o and tool exit code 2. -/
theorem exit_code_zero_or_one_witness :
    (runProgram ["libfoo.o"] 0).exitCode = 0 ∧ (runProgram ["libfoo.o"] 2).exitCode = 1 :=
  exit_code_zero_or_one ["libfoo.o"] "libfoo.o" 2 (by decide) (by decide)

/-- C2: for every path p the command list is exactly the tool name, one
redefine flag per symbol (renamed name = "__rust" prepended to the original),
and p last; the joined command for libfoo.o contains the substring
"--redefine-sym __addsf3=__rust__addsf3" and ends in "libfoo.o". -/
theorem command_exact :
    (∀ p : String,
      cmd p = ["objcopy"] ++ syms.map (fun x => "--redefine-sym " ++ x ++ "=__rust" ++ x) ++ [p]) ∧
    syms.length = 18 ∧
    (∀ p : String, (cmd p).getLast? = some p) ∧
    (∃ a b : String, joinedCmd "libfoo.o" = a ++ "--redefine-sym __addsf3=__rust__addsf3" ++ b) ∧
    (∃ a : String, joinedCmd "libfoo.o" = a ++ "libfoo.o") := by
  refine ⟨fun p => rfl, rfl, fun p => by simp [cmd, objcopy_args, syms], ?_, ?_⟩
  · exact ⟨"objcopy ", " " ++ String.intercalate " " (objcopy_args.drop 1 ++ ["libfoo.o"]), by rfl⟩
  · exact ⟨String.intercalate " " ("objcopy" :: objcopy_args) ++ " ", by rfl⟩

/-- C3: the process-spawning call receives a single shell-interpreted string,
the space-join of the tool name, the flags and the path, and not a discrete
argument list. -/
theorem command_is_single_shell_string (p : String) :
    (runCall p).shell = true ∧
    (runCall p).arg =
      CmdArg.shellString (String.intercalate " " (["objcopy"] ++ objcopy_args ++ [p])) ∧
    ∀ l : List String, (runCall p).arg ≠ CmdArg.argList l := by
  refine ⟨rfl, rfl, fun l => by simp [runCall]⟩

/-- C4: for the path "my file.o", which contains whitespace, the shell
word-splits the joined command string before the tool runs, so the tool's
last argument is "file.o" and the tool never receives the path as a single
final argument; the word list also differs from the intended command list. -/
theorem whitespace_path_is_split :
    (shellFields (joinedCmd "my file.o")).getLast? = some "file.o" ∧
    (shellFields (joinedCmd "my file.o")).getLast? ≠ some "my file.o" ∧
    shellFields (joinedCmd "my file.o") ≠ cmd "my file.o" := by
  refine ⟨by decide, by decide, by decide⟩

/-- C5: when argument parsing succeeds and the external tool exits non-zero
(including 127, the shell's tool-not-found code), the script terminates with
a non-zero exit status, and the one subprocess call it made left the child's
output streams inherited and uncaptured, so the tool's diagnostics reach the
caller verbatim. -/
theorem failure_exits_nonzero_output_verbatim (argv : List String) (p : String) (n : Nat)
    (h : parseArgs argv = ParseResult.ok p) (hn : n ≠ 0) :
    (runProgram argv n).exitCode ≠ 0 ∧
    (runProgram argv n).spawned = [runCall p] ∧
    (runCall p).capturesOutput = false := by
  refine ⟨?_, by simp [runProgram, h], rfl⟩
  simp [runProgram, h, programExit, hn]

/-- C5, witness: the failure behaviour at the concrete invocation with path
libfoo.o and tool exit code 127. -/
theorem failure_exits_nonzero_output_verbatim_witness :
    (runProgram ["libfoo.o"] 127).exitCode ≠ 0 ∧
    (runProgram ["libfoo.o"] 127).spawned = [runCall "libfoo.o"] ∧
    (runCall "libfoo.o").capturesOutput = false :=
  failure_exits_nonzero_output_verbatim ["libfoo.o"] "libfoo.o" 127 (by decide) (by decide)

/-- C6: a missing positional argument, an extra argument and an unknown
option are all usage errors, and on every usage error the script prints the
argparse usage message and exits with the non-zero status 2 without spawning
any subprocess. -/
theorem usage_error_exits_before_spawn :
    parseArgs [] = ParseResult.usageError ∧
    parseArgs ["a.o", "b.o"] = ParseResult.usageError ∧
    parseArgs ["--bogus"] = ParseResult.usageError ∧
    ∀ argv : List String, ∀ n : Nat, parseArgs argv = ParseResult.usageError →
      (runProgram argv n).spawned = [] ∧
      (runProgram argv n).exitCode = 2 ∧
      (runProgram argv n).usagePrinted = true := by
  refine ⟨by decide, by decide, by decide, fun argv n h => by simp [runProgram, h]⟩

/-- C7: no run ever spawns more than one child process, and every run whose
argument parsing succeeds spawns exactly the one synchronous subprocess.run
call, which waits for the child before the script can exit. -/
theorem exactly_one_synchronous_child :
    (∀ argv : List String, ∀ n : Nat, (runProgram argv n).spawned.length ≤ 1) ∧
    (∀ argv : List String, ∀ p : String, ∀ n : Nat, parseArgs argv = ParseResult.ok p →
      (runProgram argv n).spawned = [runCall p] ∧ (runCall p).synchronous = true) := by
  constructor
  · intro argv n
    rcases h : parseArgs argv with _ | _ | _ <;> simp [runProgram, h]
  · intro argv p n h
    exact ⟨by simp [runProgram, h], rfl⟩

/-- C8: the flag sequence handed to the external tool is deterministic: for
any two paths the first nineteen command elements (tool name plus the 18
flags) coincide; there are exactly 18 flags, each beginning with
"--redefine-sym ", and the path is always the single trailing element. -/
theorem deterministic_flag_sequence :
    (∀ p q : String, (cmd p).take 19 = (cmd q).take 19) ∧
    objcopy_args.length = 18 ∧
    (∀ f ∈ objcopy_args, "--redefine-sym ".data <+: f.data) ∧
    (∀ p : String, (cmd p).take 19 = "objcopy" :: objcopy_args ∧ (cmd p).drop 19 = [p]) :=
  ⟨fun _ _ => rfl, rfl, by decide, fun _ => ⟨rfl, rfl⟩⟩

/-- C9: the rename table's original names are pairwise distinct, every
renamed name is the original with the fixed "__rust" prefix, no renamed name
coincides with any original name, and the flag list of the script is exactly
the rendering of this table. -/
theorem rename_table_invariants :
    (renameTable.map Prod.fst).Nodup ∧
    (∀ pr ∈ renameTable, pr.2 = "__rust" ++ pr.1) ∧
    (∀ pr ∈ renameTable, pr.2 ∉ renameTable.map Prod.fst) ∧
    objcopy_args = renameTable.map (fun pr => "--redefine-sym " ++ pr.1 ++ "=" ++ pr.2) := by
  refine ⟨by decide, by decide, by decide, by decide⟩

/-- C10: after one run of the external tool no original name remains in the
symbol table, and a second run on the result succeeds with exit code 0 and
changes nothing - repeated invocation is idempotent and safe. -/
theorem second_run_succeeds_and_is_noop (t : List String) :
    (∀ s ∈ (toolRun t).2, s ∉ syms) ∧
    toolRun (toolRun t).2 = (0, (toolRun t).2) := by
  have h1 : ∀ s ∈ (toolRun t).2, s ∉ syms := by
    intro s hs
    simp only [toolRun, List.mem_map] at hs
    rcases hs with ⟨u, _, rfl⟩
    exact redefineName_not_mem u
  refine ⟨h1, ?_⟩
  have h2 : ∀ s ∈ t.map redefineName, redefineName s = s := by
    intro s hs
    exact redefineName_eq_of_not_mem s (h1 s (by simpa [toolRun] using hs))
  show toolRun (t.map redefineName) = (0, t.map redefineName)
  simp only [toolRun, Prod.mk.injEq, true_and]
  calc (t.map redefineName).map redefineName
      = (t.map redefineName).map id := List.map_congr_left h2
    _ = t.map redefineName := List.map_id _

end Redefine
